import Mathlib

/-!
Shallow embedding of the payment-service repository (NestJS/TypeScript).

Modelling conventions:
* JavaScript `Date` values are instants, modelled as `Nat` milliseconds since
  the epoch.  Every synchronous operation takes an explicit `now : Nat`; all
  `new Date()` calls inside one synchronous operation yield that instant.
* JavaScript numbers are modelled as exact numbers (`Int` for integer amounts
  and timestamps, `ℚ` for the fractional failure rates).
* A JavaScript object used as an open `Record<string, any>` is modelled as an
  association list `List (String × JsonValue)`; object spread
  `\x7b ...old, ...patch \x7d` is `mergeObj old patch`.
* Optional (`?:`) fields are `Option`; the JS truthiness test `if (x)` on an
  optional string is `truthyStr` (an empty string is falsy), on an optional
  enum or object it is `Option.isSome` (enum values are non-empty strings and
  objects are always truthy).
* The repository's `Map<string, PaymentEntity>` is a `List PaymentEntity` in
  insertion order; `Map.set` is `setPayment` (replace in place if the id is
  present, append otherwise) and `Map.get` is `List.find?` on the id.
-/

/-- Payment status enumeration, from src/payment/enums (values are the
lowercase strings used by the API; the string values themselves only matter
for sorting by status, which no claim depends on). -/
inductive PaymentStatus
  | PENDING
  | PROCESSING
  | COMPLETED
  | FAILED
  | CANCELLED
  | REFUNDED
  deriving DecidableEq, Repr

/-- Payment method enumeration, from src/payment/enums. -/
inductive PaymentMethod
  | CREDIT_CARD
  | DEBIT_CARD
  | BANK_TRANSFER
  | DIGITAL_WALLET
  deriving DecidableEq, Repr

/-- Modelled from the spec: the enums module is not under src/; the README and
spec give the status wire values as lowercase strings. -/
def PaymentStatus.toStr : PaymentStatus → String
  | .PENDING => "pending"
  | .PROCESSING => "processing"
  | .COMPLETED => "completed"
  | .FAILED => "failed"
  | .CANCELLED => "cancelled"
  | .REFUNDED => "refunded"

/-- Modelled from the spec: the enums module is not under src/; the README and
spec give the payment-method wire values as lowercase snake-case strings. -/
def PaymentMethod.toStr : PaymentMethod → String
  | .CREDIT_CARD => "credit_card"
  | .DEBIT_CARD => "debit_card"
  | .BANK_TRANSFER => "bank_transfer"
  | .DIGITAL_WALLET => "digital_wallet"

/-- A JSON-representable value stored in a metadata map. -/
inductive JsonValue
  | num (n : Int)
  | str (s : String)
  | boolean (b : Bool)
  | null
  deriving DecidableEq, Repr

/-- An open key-value map (`Record<string, any>`), as an association list. -/
abbrev Metadata := List (String × JsonValue)

/-- JavaScript object spread `\x7b ...old, ...patch \x7d`: keys of `patch`
override, keys only in `old` are kept. -/
def mergeObj (old patch : Metadata) : Metadata :=
  old.filter (fun kv => (patch.lookup kv.1).isNone) ++ patch

/-- JS truthiness of an optional string: present and non-empty. -/
def truthyStr : Option String → Bool
  | none => false
  | some s => !s.isEmpty

/-- PaymentEntity, src/payment/entities/payment.entity.ts. -/
structure PaymentEntity where
  id : String
  amount : Int
  currency : String
  paymentMethod : PaymentMethod
  status : PaymentStatus
  customerId : String
  description : Option String
  metadata : Option Metadata
  createdAt : Nat
  updatedAt : Nat
  processedAt : Option Nat
  failureReason : Option String
  deriving DecidableEq, Repr

/-- PaymentEntity.updateStatus (payment.entity.ts lines 24-35): set the
status, refresh updatedAt, stamp processedAt whenever the new status is
COMPLETED or FAILED, and store the failure reason when one is supplied
(JS truthiness: a present, non-empty string). -/
def PaymentEntity.updateStatus (p : PaymentEntity) (status : PaymentStatus)
    (failureReason : Option String) (now : Nat) : PaymentEntity :=
  let p1 := { p with status := status, updatedAt := now }
  let p2 :=
    if status = PaymentStatus.COMPLETED ∨ status = PaymentStatus.FAILED then
      { p1 with processedAt := some now }
    else p1
  if truthyStr failureReason then { p2 with failureReason := failureReason }
  else p2

/-- PaymentEntity.updateMetadata (payment.entity.ts lines 37-40):
`this.metadata = \x7b ...this.metadata, ...metadata \x7d` (spreading an
undefined map contributes nothing) and refresh updatedAt. -/
def PaymentEntity.updateMetadata (p : PaymentEntity) (m : Metadata)
    (now : Nat) : PaymentEntity :=
  { p with metadata := some (mergeObj (p.metadata.getD []) m), updatedAt := now }

/-- The plain JSON object produced by PaymentEntity.toJSON and written to the
file mirror.  Timestamps are serialized as ISO-8601 strings denoting their
instant; the record carries the denoted instant. -/
structure PaymentRecord where
  id : String
  amount : Int
  currency : String
  paymentMethod : PaymentMethod
  status : PaymentStatus
  customerId : String
  description : Option String
  metadata : Option Metadata
  createdAt : Nat
  updatedAt : Nat
  processedAt : Option Nat
  failureReason : Option String
  deriving DecidableEq, Repr

/-- PaymentEntity.toJSON (payment.entity.ts lines 42-57): field-by-field copy
into the serialized representation. -/
def PaymentEntity.toJSON (p : PaymentEntity) : PaymentRecord :=
  { id := p.id
    amount := p.amount
    currency := p.currency
    paymentMethod := p.paymentMethod
    status := p.status
    customerId := p.customerId
    description := p.description
    metadata := p.metadata
    createdAt := p.createdAt
    updatedAt := p.updatedAt
    processedAt := p.processedAt
    failureReason := p.failureReason }

/-- In-memory state of PaymentRepository
(src/payment/repositories/payment.repository.ts): the values of the
`Map<string, PaymentEntity>` in insertion order. -/
structure Store where
  payments : List PaymentEntity
  deriving DecidableEq, Repr

/-- `Map.set(p.id, p)` on the values list: replace in place when the id is
already a key, append otherwise. -/
def setPayment (l : List PaymentEntity) (p : PaymentEntity) : List PaymentEntity :=
  if l.any (fun q => q.id = p.id) then
    l.map (fun q => if q.id = p.id then p else q)
  else l ++ [p]

/-- PaymentRepository.findById: `this.payments.get(id) || null`. -/
def Store.findById (s : Store) (id : String) : Option PaymentEntity :=
  s.payments.find? (fun p => p.id = id)

/-- PaymentRepository.create: `payments.set(payment.id, payment)` (then a
best-effort save to the file mirror, modelled separately by saveToFile). -/
def Store.create (s : Store) (p : PaymentEntity) : Store :=
  { payments := setPayment s.payments p }

/-- PaymentRepository.update: same `payments.set` as create. -/
def Store.update (s : Store) (p : PaymentEntity) : Store :=
  { payments := setPayment s.payments p }

/-- PaymentRepository.saveToFile (lines 60-74): serialize every entity with
toJSON into the JSON array written to the file mirror. -/
def Store.saveToFile (s : Store) : List PaymentRecord :=
  s.payments.map PaymentEntity.toJSON

/-- The entity rebuilt by PaymentRepository.loadFromFile for one record:
`new PaymentEntity(\x7b ...paymentData, createdAt: new Date(...), updatedAt:
new Date(...), processedAt: ... ? new Date(...) : undefined \x7d)`.  Parsing
an ISO-8601 string recovers the instant it denotes; the entity constructor
keeps the supplied (truthy) timestamps. -/
def entityOfRecord (r : PaymentRecord) : PaymentEntity :=
  { id := r.id
    amount := r.amount
    currency := r.currency
    paymentMethod := r.paymentMethod
    status := r.status
    customerId := r.customerId
    description := r.description
    metadata := r.metadata
    createdAt := r.createdAt
    updatedAt := r.updatedAt
    processedAt := r.processedAt
    failureReason := r.failureReason }

/-- PaymentRepository.loadFromFile (lines 35-58): rebuild each entity and
`payments.set` it into an initially empty map. -/
def loadFromFile (file : List PaymentRecord) : Store :=
  { payments := file.foldl (fun l r => setPayment l (entityOfRecord r)) [] }

/-- The value a payment is compared by; numeric for amount and timestamps,
string for the rest (PaymentRepository.getSortValue returns `any`, but all
values produced for one `sortBy` key have the same type). -/
inductive SortVal
  | num (n : Int)
  | str (s : String)
  deriving DecidableEq, Repr

/-- JavaScript `aValue > bValue` on two sort values (homogeneous cases; a
mixed pair never arises since the type is determined by `sortBy`). -/
def SortVal.jsGt : SortVal → SortVal → Bool
  | .num a, .num b => b < a
  | .str a, .str b => b < a
  | .num _, .str _ => false
  | .str _, .num _ => false

/-- JavaScript `aValue < bValue` on two sort values. -/
def SortVal.jsLt : SortVal → SortVal → Bool
  | .num a, .num b => a < b
  | .str a, .str b => a < b
  | .num _, .str _ => false
  | .str _, .num _ => false

/-- PaymentRepository.getSortValue (lines 202-221): the switch over sortBy,
defaulting to createdAt's timestamp. -/
def getSortValue (p : PaymentEntity) (sortBy : String) : SortVal :=
  if sortBy = "amount" then .num p.amount
  else if sortBy = "status" then .str p.status.toStr
  else if sortBy = "customerId" then .str p.customerId
  else if sortBy = "paymentMethod" then .str p.paymentMethod.toStr
  else if sortBy = "currency" then .str p.currency
  else if sortBy = "createdAt" then .num p.createdAt
  else if sortBy = "updatedAt" then .num p.updatedAt
  else .num p.createdAt

/-- The repository's sort comparator returns 1 or -1, never 0
(`asc: aValue > bValue ? 1 : -1; desc: aValue < bValue ? 1 : -1`); an element
a stays before b exactly when the comparator is negative. -/
def sortLe (sortBy sortOrder : String) (a b : PaymentEntity) : Bool :=
  if sortOrder = "asc" then !(getSortValue a sortBy).jsGt (getSortValue b sortBy)
  else !(getSortValue a sortBy).jsLt (getSortValue b sortBy)

/-- The `allPayments.sort(comparator)` step, as a stable sort by the
comparator-negative relation. -/
def sortPayments (l : List PaymentEntity) (sortBy sortOrder : String) :
    List PaymentEntity :=
  l.mergeSort (fun a b => sortLe sortBy sortOrder a b)

/-- Clamp one JavaScript slice index: negative indices count from the end,
then clamp to [0, len]. -/
def jsSliceIndex (len : Nat) (i : Int) : Nat :=
  if i < 0 then ((len : Int) + i).toNat else min i.toNat len

/-- JavaScript `Array.prototype.slice(start, stop)`. -/
def jsSlice {α : Type} (l : List α) (start stop : Int) : List α :=
  (l.take (jsSliceIndex l.length stop)).drop (jsSliceIndex l.length start)

/-- Result of a paginated query: the page of entities plus the pre-slice
count. -/
structure Paginated where
  data : List PaymentEntity
  total : Nat
  deriving DecidableEq, Repr

/-- PaymentRepository.paginateResults (lines 189-200):
`data = payments.slice((page-1)*limit, (page-1)*limit + limit)`,
`total = payments.length`. -/
def paginateResults (payments : List PaymentEntity) (page limit : Int) :
    Paginated :=
  { data := jsSlice payments ((page - 1) * limit) ((page - 1) * limit + limit)
    total := payments.length }

/-- PaymentRepository.findPaginated (lines 91-112): sort everything, then
paginate. -/
def Store.findPaginated (s : Store) (page limit : Int)
    (sortBy sortOrder : String) : Paginated :=
  paginateResults (sortPayments s.payments sortBy sortOrder) page limit

/-- PaymentRepository.findByCustomerIdPaginated (lines 120-144): filter by
customerId, sort, paginate. -/
def Store.findByCustomerIdPaginated (s : Store) (customerId : String)
    (page limit : Int) (sortBy sortOrder : String) : Paginated :=
  paginateResults
    (sortPayments (s.payments.filter (fun p => p.customerId = customerId))
      sortBy sortOrder)
    page limit

/-- PaymentRepository.findByStatusPaginated (lines 159-183): filter by
status, sort, paginate. -/
def Store.findByStatusPaginated (s : Store) (status : PaymentStatus)
    (page limit : Int) (sortBy sortOrder : String) : Paginated :=
  paginateResults
    (sortPayments (s.payments.filter (fun p => p.status = status))
      sortBy sortOrder)
    page limit

/-- CreatePaymentDto (src/payment/dto): the inbound creation request. -/
structure CreatePaymentDto where
  amount : Int
  currency : String
  paymentMethod : PaymentMethod
  customerId : String
  description : Option String
  metadata : Option Metadata
  deriving DecidableEq, Repr

/-- UpdatePaymentDto (src/payment/dto/update-payment.dto.ts): the inbound
update patch; every field optional. -/
structure UpdatePaymentDto where
  status : Option PaymentStatus
  metadata : Option Metadata
  failureReason : Option String
  deriving DecidableEq, Repr

/-- The transition table of PaymentService.isValidStatusTransition
(payment.service.ts lines 179-199). -/
def validTransitions : PaymentStatus → List PaymentStatus
  | .PENDING => [.PROCESSING, .CANCELLED]
  | .PROCESSING => [.COMPLETED, .FAILED]
  | .COMPLETED => [.REFUNDED]
  | .FAILED => [.PENDING]
  | .CANCELLED => []
  | .REFUNDED => []

/-- PaymentService.isValidStatusTransition:
`validTransitions[currentStatus]?.includes(newStatus) || false`. -/
def isValidStatusTransition (currentStatus newStatus : PaymentStatus) : Bool :=
  (validTransitions currentStatus).contains newStatus

/-- Errors signalled by the synchronous service operations. -/
inductive UpdateErr
  | notFound (id : String)
  | invalidTransition (fromStatus toStatus : PaymentStatus)
  deriving DecidableEq, Repr

/-- PaymentService.createPayment (payment.service.ts lines 24-48): build the
entity with a freshly generated id (uuidv4, passed here as `newId`), status
PENDING, both timestamps set by the constructor to now, persist it, return
it.  The fire-and-forget simulator scheduling has no synchronous effect. -/
def createPayment (s : Store) (dto : CreatePaymentDto) (newId : String)
    (now : Nat) : Store × PaymentEntity :=
  let payment : PaymentEntity :=
    { id := newId
      amount := dto.amount
      currency := dto.currency
      paymentMethod := dto.paymentMethod
      status := PaymentStatus.PENDING
      customerId := dto.customerId
      description := dto.description
      metadata := dto.metadata
      createdAt := now
      updatedAt := now
      processedAt := none
      failureReason := none }
  (s.create payment, payment)

/-- PaymentService.updatePayment (payment.service.ts lines 118-148): look the
payment up (NotFound if absent); if the patch carries a status, reject an
invalid transition before any mutation; otherwise apply the status update
(with the patch's failureReason) and then the metadata merge, and persist.
A thrown error leaves the store untouched (see updatePaymentStore). -/
def updatePayment (s : Store) (id : String) (dto : UpdatePaymentDto)
    (now : Nat) : Except UpdateErr (Store × PaymentEntity) :=
  match s.findById id with
  | none => .error (.notFound id)
  | some payment =>
    match dto.status with
    | some st =>
      if isValidStatusTransition payment.status st then
        let p1 := payment.updateStatus st dto.failureReason now
        let p2 :=
          match dto.metadata with
          | some m => p1.updateMetadata m now
          | none => p1
        .ok (s.update p2, p2)
      else .error (.invalidTransition payment.status st)
    | none =>
      let p2 :=
        match dto.metadata with
        | some m => payment.updateMetadata m now
        | none => payment
      .ok (s.update p2, p2)

/-- The repository state after an updatePayment call: unchanged when the call
signals an error (the exception is thrown before any store mutation). -/
def updatePaymentStore (s : Store) (id : String) (dto : UpdatePaymentDto)
    (now : Nat) : Store :=
  match updatePayment s id dto now with
  | .ok (s2, _) => s2
  | .error _ => s

/-- PaymentService.getFailureRate (payment.service.ts lines 297-309), with JS
numbers as exact rationals: base 0.1, +0.1 above amount 10000, +0.05 for
credit cards, capped by Math.min at 0.5. -/
def getFailureRate (payment : PaymentEntity) : ℚ :=
  let r1 : ℚ := 1/10
  let r2 := if 10000 < payment.amount then r1 + 1/10 else r1
  let r3 :=
    if payment.paymentMethod = PaymentMethod.CREDIT_CARD then r2 + 1/20 else r2
  min r3 (1/2)

/-- A concrete payment used by witnesses and counterexamples. -/
def samplePayment (st : PaymentStatus) : PaymentEntity :=
  { id := "p1"
    amount := 500
    currency := "USD"
    paymentMethod := PaymentMethod.CREDIT_CARD
    status := st
    customerId := "c1"
    description := none
    metadata := none
    createdAt := 0
    updatedAt := 0
    processedAt := none
    failureReason := none }

lemma truthyStr_some {r : String} (h : r ≠ "") : truthyStr (some r) = true := by
  cases hb : r.isEmpty with
  | false => simp [truthyStr, hb]
  | true => exact absurd ((String.isEmpty_iff r).1 hb) h

lemma updateStatus_failureReason_some (p : PaymentEntity) (st : PaymentStatus)
    {r : String} (h : r ≠ "") (now : Nat) :
    (p.updateStatus st (some r) now).failureReason = some r := by
  simp [PaymentEntity.updateStatus, truthyStr_some h]

lemma updateStatus_failureReason_none (p : PaymentEntity) (st : PaymentStatus)
    (now : Nat) :
    (p.updateStatus st none now).failureReason = p.failureReason := by
  simp [PaymentEntity.updateStatus, truthyStr]
  split <;> rfl

lemma updateMetadata_failureReason (p : PaymentEntity) (m : Metadata) (now : Nat) :
    (p.updateMetadata m now).failureReason = p.failureReason := rfl

lemma lookup_filter_of_isSome (old patch : Metadata) (k : String)
    (h : (patch.lookup k).isSome) :
    (old.filter fun kv => (patch.lookup kv.1).isNone).lookup k = none := by
  induction old with
  | nil => rfl
  | cons kv t ih =>
    obtain ⟨k1, v1⟩ := kv
    by_cases hk : (patch.lookup k1).isNone
    · have hne : (k == k1) = false := by
        rcases hb : k == k1 with _ | _
        · rfl
        · rw [show k = k1 from beq_iff_eq.1 hb] at h
          rw [Option.isNone_iff_eq_none.1 hk] at h
          simp at h
      simp [List.filter_cons, hk, List.lookup_cons, hne, ih]
    · simp [List.filter_cons, hk, ih]

lemma lookup_filter_of_none (old patch : Metadata) (k : String)
    (h : patch.lookup k = none) :
    (old.filter fun kv => (patch.lookup kv.1).isNone).lookup k = old.lookup k := by
  induction old with
  | nil => rfl
  | cons kv t ih =>
    obtain ⟨k1, v1⟩ := kv
    by_cases hb : k = k1
    · subst hb
      simp [List.filter_cons, h, List.lookup_cons, ih]
    · have hne : (k == k1) = false := by
        rcases hq : k == k1 with _ | _
        · rfl
        · exact absurd (beq_iff_eq.1 hq) hb
      by_cases hk : (patch.lookup k1).isNone
      · simp [List.filter_cons, hk, List.lookup_cons, hne, ih]
      · simp [List.filter_cons, hk, List.lookup_cons, hne, ih]

lemma lookup_mergeObj_of_some (old patch : Metadata) {k : String} {v : JsonValue}
    (h : patch.lookup k = some v) :
    (mergeObj old patch).lookup k = some v := by
  have hs : (patch.lookup k).isSome := by simp [h]
  rw [mergeObj, List.lookup_append, lookup_filter_of_isSome old patch k hs]
  simp [h]

lemma lookup_mergeObj_of_none (old patch : Metadata) {k : String}
    (h : patch.lookup k = none) :
    (mergeObj old patch).lookup k = old.lookup k := by
  rw [mergeObj, List.lookup_append, lookup_filter_of_none old patch k h, h]
  cases old.lookup k <;> rfl

lemma eq_of_mem_of_idsNodup :
    ∀ {l : List PaymentEntity} {p q : PaymentEntity},
      (l.map PaymentEntity.id).Nodup → p ∈ l → q ∈ l → p.id = q.id → p = q := by
  intro l
  induction l with
  | nil => intro p q _ hp; cases hp
  | cons a t ih =>
    intro p q hn hp hq hid
    rw [List.map_cons, List.nodup_cons] at hn
    rcases List.mem_cons.1 hp with hpa | hpt <;>
      rcases List.mem_cons.1 hq with hqa | hqt
    · rw [hpa, hqa]
    · subst hpa
      exact absurd (hid ▸ List.mem_map_of_mem PaymentEntity.id hqt) hn.1
    · subst hqa
      exact absurd (hid ▸ List.mem_map_of_mem PaymentEntity.id hpt) hn.1
    · exact ih hn.2 hpt hqt hid

lemma find?_id_of_mem {l : List PaymentEntity} {p : PaymentEntity}
    (hn : (l.map PaymentEntity.id).Nodup) (hm : p ∈ l) :
    l.find? (fun q => q.id = p.id) = some p := by
  induction l with
  | nil => cases hm
  | cons a t ih =>
    rw [List.map_cons, List.nodup_cons] at hn
    by_cases ha : a.id = p.id
    · have : a = p := by
        rcases List.mem_cons.1 hm with hpa | hpt
        · rw [hpa]
        · exact eq_of_mem_of_idsNodup (by simp [List.nodup_cons, hn.1, hn.2])
            (List.mem_cons_self a t) (List.mem_cons_of_mem a hpt) ha
      rw [List.find?_cons]
      simp [ha, this]
    · have hpt : p ∈ t := by
        rcases List.mem_cons.1 hm with hpa | hpt
        · exact absurd (by rw [hpa]) ha
        · exact hpt
      rw [List.find?_cons]
      simp [ha, ih hn.2 hpt]

lemma setPayment_of_fresh {l : List PaymentEntity} {p : PaymentEntity}
    (h : ∀ q ∈ l, ¬ q.id = p.id) : setPayment l p = l ++ [p] := by
  have : l.any (fun q => q.id = p.id) = false := by
    rcases hb : l.any (fun q => q.id = p.id) with _ | _
    · rfl
    · obtain ⟨x, hx, hxe⟩ := List.any_eq_true.1 hb
      exact absurd (of_decide_eq_true hxe) (h x hx)
  simp [setPayment, this]

lemma setPayment_self {l : List PaymentEntity} {p : PaymentEntity}
    (hn : (l.map PaymentEntity.id).Nodup) (hm : p ∈ l) : setPayment l p = l := by
  have hany : l.any (fun q => q.id = p.id) = true :=
    List.any_eq_true.2 ⟨p, hm, by simp⟩
  rw [setPayment, if_pos hany]
  have : ∀ q ∈ l, (if q.id = p.id then p else q) = q := by
    intro q hq
    by_cases hqe : q.id = p.id
    · rw [if_pos hqe, eq_of_mem_of_idsNodup hn hm hq hqe.symm]
    · rw [if_neg hqe]
  rw [List.map_congr_left this]
  simp

lemma foldl_setPayment :
    ∀ (l acc : List PaymentEntity),
      (((acc ++ l).map PaymentEntity.id).Nodup) →
      l.foldl setPayment acc = acc ++ l := by
  intro l
  induction l with
  | nil => intro acc _; simp
  | cons p t ih =>
    intro acc hn
    have hfresh : ∀ q ∈ acc, ¬ q.id = p.id := by
      intro q hq hqe
      rw [List.map_append, List.nodup_append] at hn
      exact hn.2.2 (List.mem_map_of_mem PaymentEntity.id hq) (by simp [hqe])
    rw [List.foldl_cons, setPayment_of_fresh hfresh]
    have hn2 : (((acc ++ [p]) ++ t).map PaymentEntity.id).Nodup := by
      simpa [List.append_assoc] using hn
    rw [ih (acc ++ [p]) hn2, List.append_assoc]
    rfl

lemma jsSliceIndex_ofNat (len s0 : Nat) :
    jsSliceIndex len (s0 : Int) = min s0 len := by
  simp [jsSliceIndex]

lemma jsSlice_nonneg (l : List PaymentEntity) (s0 lim : Nat) :
    jsSlice l (s0 : Int) ((s0 : Int) + (lim : Int)) = (l.drop s0).take lim := by
  have h2 : ((s0 : Int) + (lim : Int)) = ((s0 + lim : Nat) : Int) := by push_cast; ring
  rw [jsSlice, jsSliceIndex_ofNat, h2, jsSliceIndex_ofNat, List.drop_take]
  by_cases hs : s0 ≤ l.length
  · rw [min_eq_left hs]
    by_cases he : s0 + lim ≤ l.length
    · rw [min_eq_left he]
      congr 1
      omega
    · have hl1 : List.take (l.length - s0) (List.drop s0 l) = List.drop s0 l :=
        List.take_of_length_le (by rw [List.length_drop])
      have hl2 : List.take lim (List.drop s0 l) = List.drop s0 l :=
        List.take_of_length_le (by rw [List.length_drop]; omega)
      rw [min_eq_right (by omega), hl1, hl2]
  · rw [min_eq_right (show l.length ≤ s0 by omega), List.drop_length,
      List.drop_eq_nil_of_le (show l.length ≤ s0 by omega), List.take_nil,
      List.take_nil]

lemma paginateResults_data_pos (l : List PaymentEntity) (page limit : Int)
    (hp : 1 ≤ page) (hl : 1 ≤ limit) :
    (paginateResults l page limit).data =
      (l.drop ((page - 1) * limit).toNat).take limit.toNat := by
  have hs : (0 : Int) ≤ (page - 1) * limit := mul_nonneg (by omega) (by omega)
  obtain ⟨s0, hs0⟩ : ∃ s0 : Nat, (page - 1) * limit = (s0 : Int) :=
    ⟨((page - 1) * limit).toNat, (Int.toNat_of_nonneg hs).symm⟩
  obtain ⟨lim, hlim⟩ : ∃ lim : Nat, limit = (lim : Int) :=
    ⟨limit.toNat, (Int.toNat_of_nonneg (by omega)).symm⟩
  show jsSlice l ((page - 1) * limit) ((page - 1) * limit + limit) = _
  rw [hs0, hlim, jsSlice_nonneg]
  congr 1

lemma paginateResults_page_zero (l : List PaymentEntity) (limit : Int) :
    (paginateResults l 0 limit).data = [] := by
  have hz : ((0 : Int) - 1) * limit + limit = 0 := by ring
  show jsSlice l (((0 : Int) - 1) * limit) (((0 : Int) - 1) * limit + limit) = []
  rw [jsSlice, hz]
  have : jsSliceIndex l.length 0 = 0 := by simp [jsSliceIndex]
  rw [this, List.take_zero, List.drop_nil]

lemma sortLe_amount_asc (a b : PaymentEntity) :
    sortLe "amount" "asc" a b = decide (a.amount ≤ b.amount) := by
  have h : sortLe "amount" "asc" a b = !decide (b.amount < a.amount) := rfl
  rw [h, ← decide_not]
  simp [Int.not_lt]

lemma sorted_amount_asc (l : List PaymentEntity) :
    (sortPayments l "amount" "asc").Pairwise
      (fun a b => a.amount ≤ b.amount) := by
  have htrans : ∀ a b c : PaymentEntity, sortLe "amount" "asc" a b = true →
      sortLe "amount" "asc" b c = true → sortLe "amount" "asc" a c = true := by
    intro a b c hab hbc
    rw [sortLe_amount_asc] at hab hbc ⊢
    rw [decide_eq_true_eq] at hab hbc ⊢
    omega
  have htotal : ∀ a b : PaymentEntity,
      (sortLe "amount" "asc" a b || sortLe "amount" "asc" b a) = true := by
    intro a b
    rw [sortLe_amount_asc, sortLe_amount_asc]
    rcases le_total a.amount b.amount with h | h <;> simp [h]
  have h := List.sorted_mergeSort htrans htotal l
  exact h.imp (fun hab => by
    rw [sortLe_amount_asc, decide_eq_true_eq] at hab
    exact hab)

lemma getSortValue_fallback (p : PaymentEntity) (sb : String)
    (h1 : sb ≠ "amount") (h2 : sb ≠ "status") (h3 : sb ≠ "customerId")
    (h4 : sb ≠ "paymentMethod") (h5 : sb ≠ "currency") (h6 : sb ≠ "createdAt")
    (h7 : sb ≠ "updatedAt") :
    getSortValue p sb = getSortValue p "createdAt" := by
  simp [getSortValue, h1, h2, h3, h4, h5, h6, h7]

lemma sortPayments_fallback (l : List PaymentEntity) (sb so : String)
    (h1 : sb ≠ "amount") (h2 : sb ≠ "status") (h3 : sb ≠ "customerId")
    (h4 : sb ≠ "paymentMethod") (h5 : sb ≠ "currency") (h6 : sb ≠ "createdAt")
    (h7 : sb ≠ "updatedAt") :
    sortPayments l sb so = sortPayments l "createdAt" so := by
  have hf : (fun a b => sortLe sb so a b) =
      (fun a b => sortLe "createdAt" so a b) := by
    funext a b
    simp only [sortLe, getSortValue_fallback a sb h1 h2 h3 h4 h5 h6 h7,
      getSortValue_fallback b sb h1 h2 h3 h4 h5 h6 h7]
  rw [sortPayments, sortPayments, hf]

/-- C1: for every stored payment p and every update patch whose status field
st makes (p.status, st) an invalid pair, updatePayment signals
InvalidTransition (naming the current and attempted status) and the store is
left entirely unchanged — in particular the patch's metadata portion is not
merged and updatedAt is not refreshed, since the error is raised before any
mutation. -/
theorem c1_invalid_transition_rejected (s : Store) (id : String)
    (dto : UpdatePaymentDto) (now : Nat) (p : PaymentEntity)
    (st : PaymentStatus) (hfind : s.findById id = some p)
    (hst : dto.status = some st)
    (hinv : isValidStatusTransition p.status st = false) :
    updatePayment s id dto now =
      Except.error (UpdateErr.invalidTransition p.status st) ∧
    updatePaymentStore s id dto now = s := by
  have h1 : updatePayment s id dto now =
      Except.error (UpdateErr.invalidTransition p.status st) := by
    simp [updatePayment, hfind, hst, hinv]
  exact ⟨h1, by rw [updatePaymentStore, h1]⟩

/-- Witness for C1: a PENDING payment patched to COMPLETED (not an allowed
edge) together with a metadata portion; the update is rejected whole. -/
theorem c1_invalid_transition_rejected_witness :
    updatePayment (Store.mk [samplePayment PaymentStatus.PENDING]) "p1"
        (UpdatePaymentDto.mk (some PaymentStatus.COMPLETED)
          (some [("k", JsonValue.num 1)]) none) 5 =
      Except.error (UpdateErr.invalidTransition PaymentStatus.PENDING
        PaymentStatus.COMPLETED) ∧
    updatePaymentStore (Store.mk [samplePayment PaymentStatus.PENDING]) "p1"
        (UpdatePaymentDto.mk (some PaymentStatus.COMPLETED)
          (some [("k", JsonValue.num 1)]) none) 5 =
      Store.mk [samplePayment PaymentStatus.PENDING] :=
  c1_invalid_transition_rejected _ _ _ _ (samplePayment PaymentStatus.PENDING)
    PaymentStatus.COMPLETED (by decide) rfl (by decide)

/-- C3: createPayment returns a payment whose status is PENDING and whose
createdAt equals updatedAt (the constructor stamps both with now); its id is
the freshly generated uuid, so under the generator's freshness guarantee it
differs from the id of every previously stored payment. -/
theorem c3_create_payment (s : Store) (dto : CreatePaymentDto) (newId : String)
    (now : Nat) (hfresh : ∀ q ∈ s.payments, q.id ≠ newId) :
    (createPayment s dto newId now).2.status = PaymentStatus.PENDING ∧
    (createPayment s dto newId now).2.createdAt =
      (createPayment s dto newId now).2.updatedAt ∧
    ∀ q ∈ s.payments, q.id ≠ (createPayment s dto newId now).2.id :=
  ⟨rfl, rfl, fun q hq => hfresh q hq⟩

/-- Witness for C3: creating a second payment with a fresh uuid next to an
existing one. -/
theorem c3_create_payment_witness :
    (createPayment (Store.mk [samplePayment PaymentStatus.PENDING])
        (CreatePaymentDto.mk 700 "EUR" PaymentMethod.DEBIT_CARD "c2" none none)
        "p2" 9).2.status = PaymentStatus.PENDING ∧
    (createPayment (Store.mk [samplePayment PaymentStatus.PENDING])
        (CreatePaymentDto.mk 700 "EUR" PaymentMethod.DEBIT_CARD "c2" none none)
        "p2" 9).2.createdAt =
      (createPayment (Store.mk [samplePayment PaymentStatus.PENDING])
        (CreatePaymentDto.mk 700 "EUR" PaymentMethod.DEBIT_CARD "c2" none none)
        "p2" 9).2.updatedAt ∧
    ∀ q ∈ (Store.mk [samplePayment PaymentStatus.PENDING]).payments,
      q.id ≠ (createPayment (Store.mk [samplePayment PaymentStatus.PENDING])
        (CreatePaymentDto.mk 700 "EUR" PaymentMethod.DEBIT_CARD "c2" none none)
        "p2" 9).2.id :=
  c3_create_payment _ _ "p2" 9 (by decide)

/-- C4: the metadata merge is non-destructive — after updateMetadata every
key of the patch maps to the patch's value, every key absent from the patch
keeps its prior value, and updating with a:1 then b:2 yields the two-key map,
not just b:2. -/
theorem c4_metadata_merge :
    (∀ (p : PaymentEntity) (m : Metadata) (now : Nat) (k : String)
        (v : JsonValue), m.lookup k = some v →
        ((p.updateMetadata m now).metadata.getD []).lookup k = some v) ∧
    (∀ (p : PaymentEntity) (m : Metadata) (now : Nat) (k : String),
        m.lookup k = none →
        ((p.updateMetadata m now).metadata.getD []).lookup k =
          (p.metadata.getD []).lookup k) ∧
    (((samplePayment PaymentStatus.PENDING).updateMetadata
          [("a", JsonValue.num 1)] 1).updateMetadata
        [("b", JsonValue.num 2)] 2).metadata =
      some [("a", JsonValue.num 1), ("b", JsonValue.num 2)] := by
  refine ⟨?_, ?_, by decide⟩
  · intro p m now k v h
    show (mergeObj (p.metadata.getD []) m).lookup k = some v
    exact lookup_mergeObj_of_some _ _ h
  · intro p m now k h
    show (mergeObj (p.metadata.getD []) m).lookup k = _
    exact lookup_mergeObj_of_none _ _ h

/-- Witness for C4: a patched key reads back the patch's value and an
untouched key keeps its prior (absent) value. -/
theorem c4_metadata_merge_witness :
    (((samplePayment PaymentStatus.PENDING).updateMetadata
        [("a", JsonValue.num 1)] 1).metadata.getD []).lookup "a" =
      some (JsonValue.num 1) ∧
    (((samplePayment PaymentStatus.PENDING).updateMetadata
        [("a", JsonValue.num 1)] 1).metadata.getD []).lookup "z" =
      ((samplePayment PaymentStatus.PENDING).metadata.getD []).lookup "z" :=
  ⟨c4_metadata_merge.1 _ _ 1 "a" _ (by decide),
   c4_metadata_merge.2.1 _ _ 1 "z" (by decide)⟩

/-- C7: the simulator's failure probability is exactly
min(0.10 + 0.10·[amount > 10000] + 0.05·[method = credit_card], 0.50); it
takes only the values 0.10, 0.15, 0.20, 0.25 and never exceeds 0.50
(JS numbers modelled as exact rationals). -/
theorem c7_failure_rate (p : PaymentEntity) :
    getFailureRate p =
      min ((1 : ℚ)/10 + (if 10000 < p.amount then (1 : ℚ)/10 else 0) +
        (if p.paymentMethod = PaymentMethod.CREDIT_CARD then (1 : ℚ)/20 else 0))
        ((1 : ℚ)/2) ∧
    getFailureRate p ≤ (1 : ℚ)/2 ∧
    (getFailureRate p = (1 : ℚ)/10 ∨ getFailureRate p = (3 : ℚ)/20 ∨
      getFailureRate p = (1 : ℚ)/5 ∨ getFailureRate p = (1 : ℚ)/4) := by
  by_cases h1 : 10000 < p.amount <;>
    by_cases h2 : p.paymentMethod = PaymentMethod.CREDIT_CARD <;>
      simp [getFailureRate, h1, h2, min_def] <;> norm_num

/-- C9 (implicit): updateStatus stores a supplied failureReason for every
target status, not only FAILED — a valid updatePayment carrying both an
allowed non-FAILED status and a (non-empty) failureReason sets the entity's
failureReason to that string; and a transition to FAILED without a
failureReason leaves the previously stored failureReason in place. -/
theorem c9_failure_reason_any_status :
    (∀ (s : Store) (id : String) (dto : UpdatePaymentDto) (now : Nat)
        (p : PaymentEntity) (st : PaymentStatus) (r : String),
        s.findById id = some p → dto.status = some st →
        isValidStatusTransition p.status st = true →
        dto.failureReason = some r → r ≠ "" →
        ∃ s2 q, updatePayment s id dto now = Except.ok (s2, q) ∧
          q.failureReason = some r) ∧
    (∀ (s : Store) (id : String) (dto : UpdatePaymentDto) (now : Nat)
        (p : PaymentEntity),
        s.findById id = some p → dto.status = some PaymentStatus.FAILED →
        isValidStatusTransition p.status PaymentStatus.FAILED = true →
        dto.failureReason = none →
        ∃ s2 q, updatePayment s id dto now = Except.ok (s2, q) ∧
          q.failureReason = p.failureReason) := by
  constructor
  · intro s id dto now p st r hfind hst hval hfr hr
    rcases hm : dto.metadata with _ | m
    · refine ⟨s.update (p.updateStatus st dto.failureReason now),
        p.updateStatus st dto.failureReason now, ?_, ?_⟩
      · simp [updatePayment, hfind, hst, hval, hm]
      · rw [hfr]
        exact updateStatus_failureReason_some p st hr now
    · refine ⟨s.update ((p.updateStatus st dto.failureReason now).updateMetadata m now),
        (p.updateStatus st dto.failureReason now).updateMetadata m now, ?_, ?_⟩
      · simp [updatePayment, hfind, hst, hval, hm]
      · rw [updateMetadata_failureReason, hfr]
        exact updateStatus_failureReason_some p st hr now
  · intro s id dto now p hfind hst hval hfr
    rcases hm : dto.metadata with _ | m
    · refine ⟨s.update (p.updateStatus PaymentStatus.FAILED dto.failureReason now),
        p.updateStatus PaymentStatus.FAILED dto.failureReason now, ?_, ?_⟩
      · simp [updatePayment, hfind, hst, hval, hm]
      · rw [hfr]
        exact updateStatus_failureReason_none p PaymentStatus.FAILED now
    · refine ⟨s.update ((p.updateStatus PaymentStatus.FAILED dto.failureReason now).updateMetadata m now),
        (p.updateStatus PaymentStatus.FAILED dto.failureReason now).updateMetadata m now, ?_, ?_⟩
      · simp [updatePayment, hfind, hst, hval, hm]
      · rw [updateMetadata_failureReason, hfr]
        exact updateStatus_failureReason_none p PaymentStatus.FAILED now

/-- Witness for C9: a PENDING → PROCESSING update carrying failureReason
"late" stores it, and a PROCESSING → FAILED update without a failureReason
keeps the previously stored "old". -/
theorem c9_failure_reason_any_status_witness :
    (∃ s2 q, updatePayment (Store.mk [samplePayment PaymentStatus.PENDING])
        "p1" (UpdatePaymentDto.mk (some PaymentStatus.PROCESSING) none
          (some "late")) 5 = Except.ok (s2, q) ∧
        q.failureReason = some "late") ∧
    (∃ s2 q, updatePayment
        (Store.mk [{ samplePayment PaymentStatus.PROCESSING with
          failureReason := some "old" }]) "p1"
        (UpdatePaymentDto.mk (some PaymentStatus.FAILED) none none) 5 =
          Except.ok (s2, q) ∧
        q.failureReason = ({ samplePayment PaymentStatus.PROCESSING with
          failureReason := some "old" } : PaymentEntity).failureReason) :=
  ⟨c9_failure_reason_any_status.1 _ _ _ 5 (samplePayment PaymentStatus.PENDING)
      PaymentStatus.PROCESSING "late" (by decide) rfl (by decide) rfl (by decide),
   c9_failure_reason_any_status.2 _ _ _ 5
      ({ samplePayment PaymentStatus.PROCESSING with failureReason := some "old" })
      (by decide) rfl (by decide) rfl⟩

/-- C10 (implicit): an updatePayment whose patch carries neither status nor
metadata (a failureReason alone is ignored) succeeds and returns the stored
entity with every field unchanged — updatedAt included — and the store after
the call is value-equal to the store before (the only effect is a re-persist
of the unchanged entity). -/
theorem c10_empty_patch_noop (s : Store) (id : String) (dto : UpdatePaymentDto)
    (now : Nat) (p : PaymentEntity) (hfind : s.findById id = some p)
    (hst : dto.status = none) (hm : dto.metadata = none)
    (hn : (s.payments.map PaymentEntity.id).Nodup) :
    updatePayment s id dto now = Except.ok (s, p) := by
  have hmem : p ∈ s.payments := List.mem_of_find?_eq_some hfind
  have hupd : s.update p = s := by
    show Store.mk (setPayment s.payments p) = s
    rw [setPayment_self hn hmem]
  simp [updatePayment, hfind, hst, hm, hupd]

/-- Witness for C10: a patch with only a failureReason field leaves the
stored PROCESSING payment and the store untouched. -/
theorem c10_empty_patch_noop_witness :
    updatePayment (Store.mk [samplePayment PaymentStatus.PROCESSING]) "p1"
        (UpdatePaymentDto.mk none none (some "ignored")) 99 =
      Except.ok (Store.mk [samplePayment PaymentStatus.PROCESSING],
        samplePayment PaymentStatus.PROCESSING) :=
  c10_empty_patch_noop _ _ _ 99 (samplePayment PaymentStatus.PROCESSING)
    (by decide) rfl rfl (by decide)

/-- Counterexample to C2 as stated: processedAt is NOT write-once.  A payment
fails at time 10 (processedAt = 10), is retried (FAILED → PENDING →
PROCESSING, all table edges), and completes at time 40: updateStatus
re-stamps processedAt to 40, changing an already-set value. -/
theorem c2_processed_at_counterexample :
    isValidStatusTransition PaymentStatus.PROCESSING PaymentStatus.FAILED = true ∧
    isValidStatusTransition PaymentStatus.FAILED PaymentStatus.PENDING = true ∧
    isValidStatusTransition PaymentStatus.PENDING PaymentStatus.PROCESSING = true ∧
    isValidStatusTransition PaymentStatus.PROCESSING PaymentStatus.COMPLETED = true ∧
    ((samplePayment PaymentStatus.PROCESSING).updateStatus
        PaymentStatus.FAILED none 10).processedAt = some 10 ∧
    (((((samplePayment PaymentStatus.PROCESSING).updateStatus
            PaymentStatus.FAILED none 10).updateStatus
          PaymentStatus.PENDING none 20).updateStatus
        PaymentStatus.PROCESSING none 30).updateStatus
      PaymentStatus.COMPLETED none 40).processedAt = some 40 ∧
    some (40 : Nat) ≠ some (10 : Nat) := by decide

/-- C2 amended: updateStatus stamps processedAt with the transition time on
EVERY transition whose target is COMPLETED or FAILED (overwriting an
already-set value after a retry), never touches it on a transition to any
other status, and never unsets it. -/
theorem c2_processed_at_amended (p : PaymentEntity) (st : PaymentStatus)
    (fr : Option String) (now : Nat) :
    ((st = PaymentStatus.COMPLETED ∨ st = PaymentStatus.FAILED) →
      (p.updateStatus st fr now).processedAt = some now) ∧
    (¬(st = PaymentStatus.COMPLETED ∨ st = PaymentStatus.FAILED) →
      (p.updateStatus st fr now).processedAt = p.processedAt) := by
  constructor <;> intro h <;> simp [PaymentEntity.updateStatus, h] <;>
    split <;> rfl

/-- Witness for C2 amended: a transition to COMPLETED stamps processedAt with
now; a transition to PROCESSING leaves it untouched. -/
theorem c2_processed_at_amended_witness :
    ((samplePayment PaymentStatus.PROCESSING).updateStatus
        PaymentStatus.COMPLETED none 7).processedAt = some 7 ∧
    ((samplePayment PaymentStatus.PENDING).updateStatus
        PaymentStatus.PROCESSING none 7).processedAt =
      (samplePayment PaymentStatus.PENDING).processedAt :=
  ⟨(c2_processed_at_amended _ _ none 7).1 (Or.inl rfl),
   (c2_processed_at_amended _ _ none 7).2 (by decide)⟩

/-- Counterexample to C5 as stated: a negative page is NOT an empty page.
With three stored payments, page = -1 and limit = 2, the slice indices
(-4, -2) are interpreted by JavaScript slice as (0, 1) and the query returns
the first element, while the claim asserts every page outside
1..ceil(total/limit) — "including page ≤ 0" — yields empty data. -/
theorem c5_pagination_counterexample :
    (paginateResults [samplePayment PaymentStatus.PENDING,
        samplePayment PaymentStatus.PROCESSING,
        samplePayment PaymentStatus.COMPLETED] (-1) 2).data =
      [samplePayment PaymentStatus.PENDING] ∧
    (paginateResults [samplePayment PaymentStatus.PENDING,
        samplePayment PaymentStatus.PROCESSING,
        samplePayment PaymentStatus.COMPLETED] (-1) 2).data ≠ [] ∧
    (paginateResults [samplePayment PaymentStatus.PENDING,
        samplePayment PaymentStatus.PROCESSING,
        samplePayment PaymentStatus.COMPLETED] (-1) 2).total = 3 := by decide

/-- C5 amended: total is always the pre-slice (filtered) count, for every
page and limit; for page ≥ 1 and limit ≥ 1 the data is exactly the slice of
the filtered-then-sorted list starting at (page-1)·limit of length at most
limit — hence empty whenever that start index reaches the count — and page 0
also yields empty data; only negative pages escape the claim, via JS
negative slice indices. -/
theorem c5_pagination_amended :
    (∀ (l : List PaymentEntity) (page limit : Int),
        (paginateResults l page limit).total = l.length) ∧
    (∀ (s : Store) (cid : String) (page limit : Int) (sb so : String),
        (s.findByCustomerIdPaginated cid page limit sb so).total =
          (s.payments.filter (fun p => p.customerId = cid)).length) ∧
    (∀ (l : List PaymentEntity) (page limit : Int), 1 ≤ page → 1 ≤ limit →
        (paginateResults l page limit).data =
          (l.drop ((page - 1) * limit).toNat).take limit.toNat) ∧
    (∀ (l : List PaymentEntity) (page limit : Int), 1 ≤ page → 1 ≤ limit →
        (l.length : Int) ≤ (page - 1) * limit →
        (paginateResults l page limit).data = []) ∧
    (∀ (l : List PaymentEntity) (limit : Int),
        (paginateResults l 0 limit).data = []) := by
  refine ⟨fun l page limit => rfl, ?_, paginateResults_data_pos, ?_,
    paginateResults_page_zero⟩
  · intro s cid page limit sb so
    show (sortPayments _ sb so).length = _
    exact (List.mergeSort_perm _ _).length_eq
  · intro l page limit hp hl hlen
    rw [paginateResults_data_pos l page limit hp hl,
      List.drop_eq_nil_of_le (by omega), List.take_nil]

/-- Witness for C5 amended: three payments, page 2, limit 2 — the data is the
third element only and the total stays 3; page 4 is out of range and empty;
page 0 is empty. -/
theorem c5_pagination_amended_witness :
    (paginateResults [samplePayment PaymentStatus.PENDING,
        samplePayment PaymentStatus.PROCESSING,
        samplePayment PaymentStatus.COMPLETED] 2 2).data =
      (([samplePayment PaymentStatus.PENDING,
        samplePayment PaymentStatus.PROCESSING,
        samplePayment PaymentStatus.COMPLETED].drop
          (((2 : Int) - 1) * 2).toNat).take (2 : Int).toNat) ∧
    (paginateResults [samplePayment PaymentStatus.PENDING,
        samplePayment PaymentStatus.PROCESSING,
        samplePayment PaymentStatus.COMPLETED] 4 2).data = [] :=
  ⟨(c5_pagination_amended.2.2.1 _ 2 2 (by decide) (by decide)),
   (c5_pagination_amended.2.2.2.1 _ 4 2 (by decide) (by decide) (by decide))⟩

/-- C6: with pairwise-distinct amounts, findPaginated sorted by amount
ascending returns its page in strictly increasing amount order (amounts
[300,100,200] come back [100,200,300]); and any sortBy outside the seven
known keys produces exactly the result of sortBy = createdAt. -/
theorem c6_sort_semantics :
    (∀ (s : Store) (page limit : Int),
        (s.payments.map PaymentEntity.amount).Nodup →
        ((s.findPaginated page limit "amount" "asc").data).Pairwise
          (fun a b => a.amount < b.amount)) ∧
    ((Store.mk [{ samplePayment PaymentStatus.PENDING with id := "a", amount := 300 },
        { samplePayment PaymentStatus.PENDING with id := "b", amount := 100 },
        { samplePayment PaymentStatus.PENDING with id := "c", amount := 200 }]).findPaginated
        1 10 "amount" "asc").data.map PaymentEntity.amount = [100, 200, 300] ∧
    (∀ (s : Store) (page limit : Int) (sb so : String),
        sb ≠ "amount" → sb ≠ "status" → sb ≠ "customerId" →
        sb ≠ "paymentMethod" → sb ≠ "currency" → sb ≠ "createdAt" →
        sb ≠ "updatedAt" →
        s.findPaginated page limit sb so =
          s.findPaginated page limit "createdAt" so) := by
  refine ⟨?_, ?_, ?_⟩
  · intro s page limit hnd
    have hle := sorted_amount_asc s.payments
    have hperm : (sortPayments s.payments "amount" "asc").Perm s.payments :=
      List.mergeSort_perm _ _
    have hnd2 : ((sortPayments s.payments "amount" "asc").map
        PaymentEntity.amount).Nodup :=
      ((hperm.map PaymentEntity.amount).symm).nodup hnd
    have hne : (sortPayments s.payments "amount" "asc").Pairwise
        (fun a b => a.amount ≠ b.amount) := List.pairwise_map.1 hnd2
    have hstrict := (hle.and hne).imp
      (fun hab => lt_of_le_of_ne hab.1 hab.2)
    have hsub : ((s.findPaginated page limit "amount" "asc").data).Sublist
        (sortPayments s.payments "amount" "asc") :=
      (List.drop_sublist _ _).trans (List.take_sublist _ _)
    exact List.Pairwise.sublist hsub hstrict
  · simp [Store.findPaginated, sortPayments, List.mergeSort, sortLe,
      getSortValue, SortVal.jsGt, samplePayment, paginateResults, jsSlice,
      jsSliceIndex]
  · intro s page limit sb so h1 h2 h3 h4 h5 h6 h7
    show paginateResults (sortPayments s.payments sb so) page limit = _
    rw [sortPayments_fallback s.payments sb so h1 h2 h3 h4 h5 h6 h7]
    rfl

/-- Witness for C6: the three-payment store with distinct amounts is returned
strictly increasing, and an unknown sortBy string gives the createdAt
ordering. -/
theorem c6_sort_semantics_witness :
    (((Store.mk [{ samplePayment PaymentStatus.PENDING with id := "a", amount := 300 },
        { samplePayment PaymentStatus.PENDING with id := "b", amount := 100 },
        { samplePayment PaymentStatus.PENDING with id := "c", amount := 200 }]).findPaginated
        1 10 "amount" "asc").data).Pairwise (fun a b => a.amount < b.amount) ∧
    (Store.mk [samplePayment PaymentStatus.PENDING]).findPaginated 1 10
        "bogus" "desc" =
      (Store.mk [samplePayment PaymentStatus.PENDING]).findPaginated 1 10
        "createdAt" "desc" :=
  ⟨c6_sort_semantics.1 _ 1 10 (by decide),
   c6_sort_semantics.2.2 _ 1 10 "bogus" "desc" (by decide) (by decide)
     (by decide) (by decide) (by decide) (by decide) (by decide)⟩

/-- C8: persistence round-trip — serializing the collection to the file
mirror and rebuilding a fresh store from it preserves every payment exactly:
findById on the rebuilt store returns an entity equal to the original in
every field (ids, amount, currency, method, status, customerId, description,
metadata, failureReason and the three timestamps, parsed back to the same
instants). -/
theorem c8_persistence_round_trip (s : Store) (p : PaymentEntity)
    (hn : (s.payments.map PaymentEntity.id).Nodup) (hm : p ∈ s.payments) :
    (loadFromFile s.saveToFile).findById p.id = some p := by
  have hload : loadFromFile s.saveToFile = Store.mk s.payments := by
    show Store.mk ((s.payments.map PaymentEntity.toJSON).foldl
      (fun l r => setPayment l (entityOfRecord r)) []) = _
    rw [List.foldl_map]
    have hid : (fun (l : List PaymentEntity) (y : PaymentEntity) =>
        setPayment l (entityOfRecord y.toJSON)) = setPayment := by
      funext l y
      rfl
    rw [hid, foldl_setPayment s.payments [] (by simpa using hn)]
    rfl
  rw [hload]
  exact find?_id_of_mem hn hm

/-- Witness for C8: a two-payment store (one with every optional field
populated) survives the file round-trip unchanged. -/
theorem c8_persistence_round_trip_witness :
    (loadFromFile (Store.saveToFile (Store.mk
        [{ samplePayment PaymentStatus.COMPLETED with
            description := some "order 12",
            metadata := some [("txn", JsonValue.str "t1")],
            processedAt := some 42,
            failureReason := some "none really" },
          { samplePayment PaymentStatus.PENDING with id := "p2" }]))).findById
      ({ samplePayment PaymentStatus.COMPLETED with
          description := some "order 12",
          metadata := some [("txn", JsonValue.str "t1")],
          processedAt := some 42,
          failureReason := some "none really" } : PaymentEntity).id =
    some { samplePayment PaymentStatus.COMPLETED with
        description := some "order 12",
        metadata := some [("txn", JsonValue.str "t1")],
        processedAt := some 42,
        failureReason := some "none really" } :=
  c8_persistence_round_trip _ _ (by decide) (by decide)
